import Mathlib

/-!
# Program implementations of the C-transpile and OpenGL backends

A shallow embedding of the member functions that the two headers
`taichi/codegen/cc/cc_program.h` (class `CCProgramImpl`) and
`taichi/runtime/program_impls/opengl/opengl_program.h`
(class `OpenglProgramImpl`) define inline.

Conventions of the embedding

* A member function is a function from the state before the call to either a
  `Fault` or the returned value paired with the state after the call
  (`Method`).
* A raw pointer is `Ptr`: `none` is `nullptr`, `some a` is the address `a`.
  An owning `std::unique_ptr<T>` member is an `Option T` holding the owned
  object; `none` is the empty pointer.
* `Device` objects are shared (`std::shared_ptr<Device>` in the program, a raw
  `Device *` in the runtime), so they live in a store addressed by index and
  the members hold addresses.
* A dereference of a null or dangling pointer, undefined behaviour in C++, is
  the fault `null_deref`; a failed `TI_ASSERT` is the fault `assertion`, the
  macro being the always-on check of the logging header.
* Classes and functions whose declarations or bodies are outside the two files
  above are introduced with a doc comment that says so; where the header only
  calls such a function, its body is a parameter of the embedding.
-/

namespace taichi.lang

/-! ## Common definitions -/

/-- Ways in which a member function ends without returning. -/
inductive Fault where
  /-- a null (or dangling) pointer is dereferenced -/
  | null_deref
  /-- the macro TI_ASSERT finds its condition false; the text is the condition -/
  | assertion (cond : String)
  /-- the macro TI_NOT_IMPLEMENTED is reached -/
  | not_implemented
  /-- an error raised inside a collaborator whose body is outside the header -/
  | callee (msg : String)
  deriving DecidableEq, Repr

/-- Raw pointer: `none` is `nullptr`. -/
abbrev Ptr := Option Nat

/-- Member function on a state `σ` returning an `α`. -/
abbrev Method (σ α : Type) := σ → Except Fault (α × σ)

/-- Identifier of a device allocation (`DeviceAllocationId`). -/
abbrev DeviceAllocationId := Nat

/-! ## OpenGL backend: data model -/

/-- Modelled from the spec: the enumeration `DeviceCapability` (declared in the
rhi headers, outside the two files). Only one capability is named by the
program: "supports raw device pointer passing". -/
inductive DeviceCapability where
  | spirv_has_physical_storage_buffer
  | other (n : Nat)
  deriving DecidableEq, Repr

/-- Modelled from the spec: `DeviceCapabilityConfig` (declared in the rhi
headers), a capability set: each capability has a 32-bit value, and a
capability that is not listed is not enabled. -/
structure DeviceCapabilityConfig where
  devcaps : List (DeviceCapability × Nat)
  deriving DecidableEq, Repr

/-- Value of a capability as the unsigned 32-bit integer that
`DeviceCapabilityConfig::get` returns; zero when the capability is not
enabled. -/
def DeviceCapabilityConfig.get (c : DeviceCapabilityConfig)
    (cap : DeviceCapability) : Nat :=
  match c.devcaps.lookup cap with
  | some v => v % 2 ^ 32
  | none => 0

/-- Handle of a device allocation (`DeviceAllocation`): the owning device and
the allocation id. -/
structure DeviceAllocation where
  device : Ptr
  alloc_id : DeviceAllocationId
  deriving DecidableEq, Repr

/-- Pointer into a device allocation (`DevicePtr`): the allocation and a byte
offset into it. -/
structure DevicePtr where
  alloc : DeviceAllocation
  offset : Nat
  deriving DecidableEq, Repr

/-- Modelled from the spec: the class `Device` (declared in the rhi headers).
It carries its capability set and the allocations it has handed out; the id
of an allocation is its position in `allocations`, the entry is its size. -/
structure Device where
  caps_ : DeviceCapabilityConfig
  allocations : List Nat
  deriving DecidableEq, Repr

/-- The accessor `Device::get_caps`. -/
def Device.get_caps (d : Device) : DeviceCapabilityConfig := d.caps_

/-- Modelled from the spec: a binding + dispatch record built by the kernel
launcher; `refs` are the allocations the dispatch references. -/
structure DispatchRecord where
  refs : List DeviceAllocationId
  deriving DecidableEq, Repr

/-- Modelled from the spec: the waitable completion handle returned by a
non-blocking submit; it stands for the work submitted so far. -/
structure StreamSemaphore where
  work : List DispatchRecord
  deriving DecidableEq, Repr

/-- Modelled from the spec: the class `gfx::GfxRuntime` (runtime.h and
runtime.cpp are outside the two files). It holds the raw pointer to its
device, the records built since the last submit (`pending`) and the records
submitted to the device queue and not yet drained (`queue`). -/
structure GfxRuntime where
  device_ : Ptr
  pending : List DispatchRecord
  queue : List DispatchRecord
  deriving DecidableEq, Repr

/-- The accessor `GfxRuntime::get_ti_device`. -/
def GfxRuntime.get_ti_device (rt : GfxRuntime) : Ptr := rt.device_

/-- Modelled from the spec: `GfxRuntime::used_in_kernel`, "reports whether
outstanding/queued work still references a handle". -/
def GfxRuntime.used_in_kernel (rt : GfxRuntime) (id : DeviceAllocationId) : Bool :=
  (rt.pending ++ rt.queue).any (fun r => r.refs.contains id)

/-- Modelled from the spec: the kernel launcher "builds and submits binding +
dispatch records to the queue"; the record becomes outstanding work of the
runtime. -/
def GfxRuntime.launch_kernel (rt : GfxRuntime) (refs : List DeviceAllocationId) :
    GfxRuntime :=
  { rt with pending := rt.pending ++ [{ refs := refs }] }

/-- Modelled from the spec: `GfxRuntime::flush`, "submits pending work and
returns a waitable fence without blocking". -/
def GfxRuntime.flush (rt : GfxRuntime) : StreamSemaphore × GfxRuntime :=
  ({ work := rt.queue ++ rt.pending },
   { rt with pending := [], queue := rt.queue ++ rt.pending })

/-- Modelled from the spec: `GfxRuntime::synchronize`, "blocks until the queue
drains": all previously submitted work has completed when it returns. -/
def GfxRuntime.synchronize (rt : GfxRuntime) : GfxRuntime :=
  { (rt.flush).2 with queue := [] }

/-- Modelled from the spec: the class `gfx::SNodeTreeManager`
(snode_tree_manager.h is outside the two files), the "tree-id →
allocation-set mapping" of the materialized trees. -/
structure SNodeTreeManager where
  trees : List (Int × List DeviceAllocation)
  deriving DecidableEq, Repr

/-- Modelled from the spec: `spirv::CompiledSNodeStructs`, the compiled layout
of one tree (root size in bytes). -/
structure CompiledSNodeStructs where
  root_size : Nat
  deriving DecidableEq, Repr

/-- The data members of `OpenglProgramImpl` (opengl_program.h, lines 93-97),
each with its default member initializer. -/
structure OpenglProgramImpl where
  device_ : Ptr := none
  runtime_ : Option GfxRuntime := none
  snode_tree_mgr_ : Option SNodeTreeManager := none
  aot_compiled_snode_structs_ : List CompiledSNodeStructs := []
  deriving DecidableEq, Repr

/-- State on which the member functions of `OpenglProgramImpl` run: the
instance and the store of `Device` objects its pointers refer to. -/
structure GlWorld where
  self : OpenglProgramImpl
  devices : List Device
  deriving DecidableEq, Repr

/-- Dereference of a `Device *`. -/
def GlWorld.device_at (w : GlWorld) (p : Ptr) : Except Fault Device :=
  match p with
  | none => .error .null_deref
  | some a =>
    match w.devices[a]? with
    | none => .error .null_deref
    | some d => .ok d

namespace OpenglProgramImpl

/-! ## OpenGL backend: member functions defined in the header -/

/-- Lines 14-18: `return 0;  // TODO: support sparse`. -/
def get_snode_num_dynamically_allocated (_snode : Ptr) (_result_buffer : Ptr) :
    Method GlWorld Nat :=
  fun w => .ok (0, w)

/-- Lines 27-29: `runtime_->synchronize();`. -/
def synchronize : Method GlWorld Unit :=
  fun w =>
    match w.self.runtime_ with
    | none => .error .null_deref
    | some rt =>
      .ok ((), { w with self := { w.self with runtime_ := some rt.synchronize } })

/-- Lines 33-35: `return runtime_->flush();`. -/
def flush : Method GlWorld StreamSemaphore :=
  fun w =>
    match w.self.runtime_ with
    | none => .error .null_deref
    | some rt =>
      .ok ((rt.flush).1, { w with self := { w.self with runtime_ := some (rt.flush).2 } })

/-- Lines 40-43: `TI_ASSERT(snode_tree_mgr_ != nullptr);` then
`snode_tree_mgr_->destroy_snode_tree(snode_tree);`. The body of
`SNodeTreeManager::destroy_snode_tree` is outside the header and is the
parameter `mgr_destroy`: it receives the tree pointer, acts on the manager and
on the devices, and may raise an error. -/
def destroy_snode_tree
    (mgr_destroy : Ptr → SNodeTreeManager × List Device →
      Except String (SNodeTreeManager × List Device))
    (snode_tree : Ptr) : Method GlWorld Unit :=
  fun w =>
    match w.self.snode_tree_mgr_ with
    | none => .error (.assertion "snode_tree_mgr_ != nullptr")
    | some mgr =>
      match mgr_destroy snode_tree (mgr, w.devices) with
      | .error msg => .error (.callee msg)
      | .ok (mgr', devices') =>
        .ok ((), { self := { w.self with snode_tree_mgr_ := some mgr' },
                   devices := devices' })

/-- Lines 48-50: `return runtime_->used_in_kernel(id);`. -/
def used_in_kernel (id : DeviceAllocationId) : Method GlWorld Bool :=
  fun w =>
    match w.self.runtime_ with
    | none => .error .null_deref
    | some rt => .ok (rt.used_in_kernel id, w)

/-- Lines 54-56: `return device_.get();`. -/
def get_compute_device : Method GlWorld Ptr :=
  fun w => .ok (w.self.device_, w)

/-- Lines 58-60: `return device_.get();`. -/
def get_graphics_device : Method GlWorld Ptr :=
  fun w => .ok (w.self.device_, w)

/-- Lines 62-64: `return snode_tree_mgr_->get_field_in_tree_offset(tree_id,
child);`, with no null check. The body of the manager's function is outside the
header and is the parameter `mgr_offset`. -/
def get_field_in_tree_offset
    (mgr_offset : Int → Ptr → SNodeTreeManager → Except String (Nat × SNodeTreeManager))
    (tree_id : Int) (child : Ptr) : Method GlWorld Nat :=
  fun w =>
    match w.self.snode_tree_mgr_ with
    | none => .error .null_deref
    | some mgr =>
      match mgr_offset tree_id child mgr with
      | .error msg => .error (.callee msg)
      | .ok (n, mgr') =>
        .ok (n, { w with self := { w.self with snode_tree_mgr_ := some mgr' } })

/-- Lines 66-68: `return snode_tree_mgr_->get_snode_tree_device_ptr(tree_id);`,
with no null check. The body of the manager's function is outside the header
and is the parameter `mgr_device_ptr`. -/
def get_snode_tree_device_ptr
    (mgr_device_ptr : Int → SNodeTreeManager → Except String (DevicePtr × SNodeTreeManager))
    (tree_id : Int) : Method GlWorld DevicePtr :=
  fun w =>
    match w.self.snode_tree_mgr_ with
    | none => .error .null_deref
    | some mgr =>
      match mgr_device_ptr tree_id mgr with
      | .error msg => .error (.callee msg)
      | .ok (p, mgr') =>
        .ok (p, { w with self := { w.self with snode_tree_mgr_ := some mgr' } })

/-- Lines 72-76: `return gfx::GfxRuntime::get_struct_type_with_data_layout(old_ty,
layout);`, a static function of the runtime class that touches no member; its
body is the parameter `struct_layout`. -/
def get_struct_type_with_data_layout
    (struct_layout : Ptr → String → Except String (Ptr × Nat))
    (old_ty : Ptr) (layout : String) : Method GlWorld (Ptr × Nat) :=
  fun w =>
    match struct_layout old_ty layout with
    | .error msg => .error (.callee msg)
    | .ok r => .ok (r, w)

/-- Lines 78-80: `return "4-";`. -/
def get_kernel_return_data_layout : Method GlWorld String :=
  fun w => .ok ("4-", w)

/-- Lines 82-86: the capability value is read through
`runtime_->get_ti_device()->get_caps().get(...)` and the result is
`"1" + std::string(has_buffer_ptr ? "b" : "-")`, where the unsigned value
converts to true exactly when it is non-zero. -/
def get_kernel_argument_data_layout : Method GlWorld String :=
  fun w =>
    match w.self.runtime_ with
    | none => .error .null_deref
    | some rt =>
      match w.device_at rt.get_ti_device with
      | .error e => .error e
      | .ok dev =>
        let has_buffer_ptr :=
          dev.get_caps.get DeviceCapability.spirv_has_physical_storage_buffer
        .ok ("1" ++ (if has_buffer_ptr ≠ 0 then "b" else "-"), w)

end OpenglProgramImpl


/-! ## OpenGL backend: member functions whose bodies are outside the header -/

/-- Modelled from the spec: `ImageParams` (declared in the rhi headers), the
extent of a texture. -/
structure ImageParams where
  x : Nat
  y : Nat
  z : Nat
  deriving DecidableEq, Repr

/-- Modelled from the spec: `Device::allocate_memory`; the device records the
allocation and hands out the next id. -/
def Device.allocate_memory (d : Device) (size : Nat) : DeviceAllocationId × Device :=
  (d.allocations.length, { d with allocations := d.allocations ++ [size] })

namespace OpenglProgramImpl

/-- Allocation of `size` bytes on the compute device `device_`, common to the
two allocators below. -/
def allocate_on_compute_device (size : Nat) : Method GlWorld DeviceAllocation :=
  fun w =>
    match w.self.device_ with
    | none => .error .null_deref
    | some a =>
      match w.devices[a]? with
      | none => .error .null_deref
      | some d =>
        .ok ({ device := some a, alloc_id := (d.allocate_memory size).1 },
             { w with devices := w.devices.set a (d.allocate_memory size).2 })

/-- Modelled from the spec: `allocate_memory_ndarray` (declared at lines 45-46,
body in opengl_program.cpp): "return opaque allocation handles"; the buffer is
allocated on the compute device. -/
def allocate_memory_ndarray (alloc_size : Nat) (_result_buffer : Ptr) :
    Method GlWorld DeviceAllocation :=
  allocate_on_compute_device alloc_size

/-- Modelled from the spec: `allocate_texture` (declared at line 52, body in
opengl_program.cpp): "return opaque allocation handles". -/
def allocate_texture (params : ImageParams) : Method GlWorld DeviceAllocation :=
  allocate_on_compute_device (params.x * params.y * params.z)

/-- Modelled from the spec: submission of one kernel through the kernel
launcher of the instance (`make_kernel_launcher`, declared at line 90): the
launcher "builds and submits binding + dispatch records to the queue" of
`runtime_`; `refs` are the allocations the kernel references. -/
def launch_kernel (refs : List DeviceAllocationId) : Method GlWorld Unit :=
  fun w =>
    match w.self.runtime_ with
    | none => .error .null_deref
    | some rt =>
      .ok ((), { w with self := { w.self with runtime_ := some (rt.launch_kernel refs) } })

end OpenglProgramImpl

/-- Bodies of the collaborators' functions that the header calls and that are
outside the two files; each may raise an error. -/
structure GfxEnv where
  mgr_destroy_snode_tree : Ptr → SNodeTreeManager × List Device →
    Except String (SNodeTreeManager × List Device)
  mgr_get_field_in_tree_offset : Int → Ptr → SNodeTreeManager →
    Except String (Nat × SNodeTreeManager)
  mgr_get_snode_tree_device_ptr : Int → SNodeTreeManager →
    Except String (DevicePtr × SNodeTreeManager)
  get_struct_type_with_data_layout : Ptr → String → Except String (Ptr × Nat)

/-- Operations a caller performs on a bootstrapped, live `OpenglProgramImpl`:
the member functions the header defines, the two allocators, and the submission
of a kernel. The bootstrap `materialize_runtime`, the teardown `finalize` and
the destructor bound the life of the instance and are not among them. -/
inductive GlOp where
  | get_snode_num_dynamically_allocated (snode result_buffer : Ptr)
  | synchronize
  | flush
  | destroy_snode_tree (snode_tree : Ptr)
  | allocate_memory_ndarray (alloc_size : Nat) (result_buffer : Ptr)
  | used_in_kernel (id : DeviceAllocationId)
  | allocate_texture (params : ImageParams)
  | get_compute_device
  | get_graphics_device
  | get_field_in_tree_offset (tree_id : Int) (child : Ptr)
  | get_snode_tree_device_ptr (tree_id : Int)
  | get_struct_type_with_data_layout (old_ty : Ptr) (layout : String)
  | get_kernel_return_data_layout
  | get_kernel_argument_data_layout
  | launch_kernel (refs : List DeviceAllocationId)
  deriving DecidableEq, Repr

/-- State after a call, the returned value dropped. -/
def Method.after {σ α : Type} (m : Method σ α) (s : σ) : Except Fault σ :=
  match m s with
  | .error e => .error e
  | .ok (_, s') => .ok s'

/-- One operation on the state. -/
def GlOp.step (env : GfxEnv) (op : GlOp) (w : GlWorld) : Except Fault GlWorld :=
  match op with
  | .get_snode_num_dynamically_allocated snode rb =>
    (OpenglProgramImpl.get_snode_num_dynamically_allocated snode rb).after w
  | .synchronize => OpenglProgramImpl.synchronize.after w
  | .flush => OpenglProgramImpl.flush.after w
  | .destroy_snode_tree t =>
    (OpenglProgramImpl.destroy_snode_tree env.mgr_destroy_snode_tree t).after w
  | .allocate_memory_ndarray n rb => (OpenglProgramImpl.allocate_memory_ndarray n rb).after w
  | .used_in_kernel id => (OpenglProgramImpl.used_in_kernel id).after w
  | .allocate_texture ps => (OpenglProgramImpl.allocate_texture ps).after w
  | .get_compute_device => OpenglProgramImpl.get_compute_device.after w
  | .get_graphics_device => OpenglProgramImpl.get_graphics_device.after w
  | .get_field_in_tree_offset tree_id child =>
    (OpenglProgramImpl.get_field_in_tree_offset env.mgr_get_field_in_tree_offset
      tree_id child).after w
  | .get_snode_tree_device_ptr tree_id =>
    (OpenglProgramImpl.get_snode_tree_device_ptr env.mgr_get_snode_tree_device_ptr
      tree_id).after w
  | .get_struct_type_with_data_layout old_ty layout =>
    (OpenglProgramImpl.get_struct_type_with_data_layout
      env.get_struct_type_with_data_layout old_ty layout).after w
  | .get_kernel_return_data_layout => OpenglProgramImpl.get_kernel_return_data_layout.after w
  | .get_kernel_argument_data_layout =>
    OpenglProgramImpl.get_kernel_argument_data_layout.after w
  | .launch_kernel refs => (OpenglProgramImpl.launch_kernel refs).after w

/-- A sequence of operations, run in order; the first fault ends the run. -/
def GlOp.run (env : GfxEnv) (ops : List GlOp) (w : GlWorld) : Except Fault GlWorld :=
  match ops with
  | [] => .ok w
  | op :: rest =>
    match op.step env w with
    | .error e => .error e
    | .ok w' => GlOp.run env rest w'

/-- The operation is a `synchronize()`. -/
def GlOp.is_synchronize : GlOp → Bool
  | .synchronize => true
  | _ => false

/-- The operation submits a kernel that references the allocation `id`. -/
def GlOp.launches_with (id : DeviceAllocationId) : GlOp → Bool
  | .launch_kernel refs => refs.contains id
  | _ => false

/-- The operation calls into a collaborator whose body is outside the header
(the tree manager, the static layout function), which may raise an error. -/
def GlOp.calls_collaborator : GlOp → Bool
  | .destroy_snode_tree _ => true
  | .get_field_in_tree_offset _ _ => true
  | .get_snode_tree_device_ptr _ => true
  | .get_struct_type_with_data_layout _ _ => true
  | _ => false

/-- The device whose capability set is replaced by `caps` (`Device::set_caps`,
declared in the rhi headers). -/
def Device.set_caps (d : Device) (caps : DeviceCapabilityConfig) : Device :=
  { d with caps_ := caps }

/-- The state in which the `Device` object at address `a` has had its
capability set replaced; the instance itself is not touched. -/
def GlWorld.set_device_caps (w : GlWorld) (a : Nat) (caps : DeviceCapabilityConfig) :
    GlWorld :=
  match w.devices[a]? with
  | none => w
  | some d => { w with devices := w.devices.set a (d.set_caps caps) }

/-- The instance is bootstrapped: the runtime exists, and the device pointers of
the instance and of the runtime refer to `Device` objects. -/
def GlWorld.ready (w : GlWorld) : Prop :=
  (∃ rt a, w.self.runtime_ = some rt ∧ rt.device_ = some a ∧ a < w.devices.length) ∧
  (∃ a, w.self.device_ = some a ∧ a < w.devices.length)

/-! ## C-transpile backend: data model -/

/-- Modelled from the spec: `CCKernel` (cc_kernel.h is outside the two files),
a compiled kernel: "source text + deterministic symbol name". -/
structure CCKernel where
  name : String
  source : String
  deriving DecidableEq, Repr

/-- Modelled from the spec: `CCContext` (context.h), "the module's single
context structure" through which generated code exchanges data: the marshalled
arguments and the result fields. -/
structure CCContext where
  args : List Nat
  results : List Nat
  deriving DecidableEq, Repr

/-- Modelled from the spec: `CCRuntime` (cc_runtime.h), the "runtime-support
object (injected helper routines)". -/
structure CCRuntime where
  source : String
  deriving DecidableEq, Repr

/-- Modelled from the spec: `CCLayout` (cc_layout.h), the "layout object (byte
offsets for a structured root region and a scratch global temporary region)":
its constants as source text and the sizes of the two regions. -/
structure CCLayout where
  source : String
  root_size : Nat
  gtmp_size : Nat
  deriving DecidableEq, Repr

/-- Modelled from the spec: `DynamicLoader` (dynamic_loader.h), the "loaded
module handle": the path it was loaded from and the symbols it exports. -/
structure DynamicLoader where
  path : String
  symbols : List String
  deriving DecidableEq, Repr

/-- Modelled from the spec: `AotModuleBuilder`, the builder of "a serializable
precompiled artifact". -/
structure AotModuleBuilder where
  caps : DeviceCapabilityConfig
  deriving DecidableEq, Repr

/-- Modelled from the spec: `LaunchContextBuilder`, the "marshalled argument
bytes" of one launch. -/
structure LaunchContextBuilder where
  arg_bytes : List Nat
  deriving DecidableEq, Repr

/-- The data members of `CCProgramImpl` (cc_program.h, lines 89-99), each with
its default member initializer: the vectors and the string start empty, the
owning pointers start empty, `result_buffer_` is `nullptr` and `need_relink_`
is `true`. -/
structure CCProgramImpl where
  kernels_ : List CCKernel := []
  context_ : Option CCContext := none
  runtime_ : Option CCRuntime := none
  layout_ : Option CCLayout := none
  dll_ : Option DynamicLoader := none
  dll_path_ : String := ""
  args_buf_ : List Nat := []
  root_buf_ : List Nat := []
  gtmp_buf_ : List Nat := []
  result_buffer_ : Ptr := none
  need_relink_ : Bool := true
  deriving DecidableEq, Repr

/-- State on which the member functions of `CCProgramImpl` run: the instance
and the host arrays of 64-bit words that `uint64 *` pointers refer to, addressed
by index. -/
structure CCWorld where
  self : CCProgramImpl
  host : List (List Nat)
  deriving DecidableEq, Repr

namespace CCProgramImpl

/-! ## C-transpile backend: member functions defined in the header -/

/-- Lines 35-39: `return 0;  // TODO: support sparse in cc.`. -/
def get_snode_num_dynamically_allocated (_snode : Ptr) (_result_buffer : Ptr) :
    Method CCWorld Nat :=
  fun s => .ok (0, s)

/-- Lines 46-48: the body is the comment `// Not implemented yet.`. -/
def synchronize : Method CCWorld Unit :=
  fun s => .ok ((), s)

/-- Lines 50-54: `return nullptr;`. -/
def make_aot_module_builder (_caps : DeviceCapabilityConfig) :
    Method CCWorld (Option AotModuleBuilder) :=
  fun s => .ok (none, s)

/-- Lines 56-58: the body is the comment `// Not implemented yet.`. -/
def destroy_snode_tree (_snode_tree : Ptr) : Method CCWorld Unit :=
  fun s => .ok ((), s)

/-- Lines 60-62: `return layout_.get();`. -/
def get_layout : Method CCWorld (Option CCLayout) :=
  fun s => .ok (s.self.layout_, s)

/-- Lines 64-66: `return runtime_.get();`. -/
def get_runtime : Method CCWorld (Option CCRuntime) :=
  fun s => .ok (s.self.runtime_, s)

/-- Lines 77-79: the body is the comment `// Do nothing`. -/
def dump_cache_data_to_disk : Method CCWorld Unit :=
  fun s => .ok ((), s)

/-- Lines 82-84: `TI_NOT_IMPLEMENTED;`. -/
def make_kernel_compiler : Method CCWorld Unit :=
  fun _ => .error .not_implemented

end CCProgramImpl

/-! ## C-transpile backend: member functions whose bodies are outside the header -/

/-- Collaborators that the spec places out of scope and that the backend only
consumes: the kernel code generator, the structure compiler, the native
toolchain with the dynamic loader ("build and load module" service, `none` on
failure), the path of the module, the runtime-support text and the length of
the shared result buffer. -/
structure CCEnv where
  codegen : Ptr → CCKernel
  struct_compile : Ptr → CCLayout
  build_and_load : String → String → Option DynamicLoader
  module_path : String
  runtime_support : CCRuntime
  result_buffer_entries : Nat

namespace CCProgramImpl

/-- Modelled from the spec: the constructor (declared at line 30, body in
cc_program.cpp). The spec gives construction no effect of its own (the
bootstrap is `materialize_runtime`), so every member holds its default member
initializer; `host` is the host memory at that time. -/
def construct (host : List (List Nat)) : CCWorld :=
  { self := {}, host := host }

/-- Modelled from the spec: `materialize_runtime` (declared at lines 41-42):
"one-time bootstrap", "initializes backend-global state" and "returns the shared
result buffer" through `result_buffer_ptr`. -/
def materialize_runtime (env : CCEnv) (_profiler : Ptr) : Method CCWorld Ptr :=
  fun s =>
    .ok (some s.host.length,
         { self := { s.self with
                     runtime_ := some env.runtime_support,
                     context_ := some { args := [], results := [] },
                     result_buffer_ := some s.host.length },
           host := s.host ++ [List.replicate env.result_buffer_entries 0] })

/-- Modelled from the spec: `materialize_snode_tree` (declared at line 44):
"computes layout and commits backing storage for a tree", the root-storage and
scratch-temporary regions. -/
def materialize_snode_tree (env : CCEnv) (tree : Ptr) (_result_buffer : Ptr) :
    Method CCWorld Unit :=
  fun s =>
    .ok ((), { s with self := { s.self with
                 layout_ := some (env.struct_compile tree),
                 root_buf_ := List.replicate (env.struct_compile tree).root_size 0,
                 gtmp_buf_ := List.replicate (env.struct_compile tree).gtmp_size 0 } })

/-- Modelled from the spec: `add_kernel` (declared at line 87): the kernel joins
the "ordered collection of compiled kernels" and "adding a kernel sets a dirty
flag". -/
def add_kernel (kernel : CCKernel) : Method CCWorld Unit :=
  fun s =>
    .ok ((), { s with self := { s.self with
                 kernels_ := s.self.kernels_ ++ [kernel],
                 need_relink_ := true } })

/-- Modelled from the spec: `compile` (declared at lines 32-33): "lowers one
kernel to an invocable entry point"; the compiled kernel is added to the
instance and the callable is known by the kernel's symbol name. -/
def compile (env : CCEnv) (_compile_config : Ptr) (kernel : Ptr) :
    Method CCWorld String :=
  fun s =>
    match add_kernel (env.codegen kernel) s with
    | .error e => .error e
    | .ok (_, s') => .ok ((env.codegen kernel).name, s')

/-- Combined translation unit of step (1) of the relink protocol: "runtime
support, layout constants, and every compiled kernel to date". -/
def translation_unit (rt : CCRuntime) (layout : CCLayout) (kernels : List CCKernel) :
    String :=
  rt.source ++ layout.source ++ String.join (kernels.map (fun k => k.source))

/-- Modelled from the spec: `relink` (declared at line 72), the relink protocol:
(1) emit the combined translation unit; (2) invoke the toolchain to produce a
module at the deterministic path, a failure being the fatal LinkFailure;
(3) unload the previous module, load the new one; (4) re-resolve every kernel's
entry-point symbol, a missing one being the fatal SymbolResolutionFailure;
(5) clear the dirty flag. -/
def relink (env : CCEnv) : Method CCWorld Unit :=
  fun s =>
    match s.self.runtime_, s.self.layout_ with
    | none, _ => .error .null_deref
    | _, none => .error .null_deref
    | some rt, some layout =>
      match env.build_and_load (translation_unit rt layout s.self.kernels_)
              env.module_path with
      | none => .error (.callee "LinkFailure")
      | some dll =>
        if s.self.kernels_.all (fun k => dll.symbols.contains k.name) then
          .ok ((), { s with self := { s.self with
                       dll_ := some dll,
                       dll_path_ := env.module_path,
                       need_relink_ := false } })
        else .error (.callee "SymbolResolutionFailure")

/-- Modelled from the spec: `load_kernel` (declared at line 71): "resolves a
registered entry point from the current module; fails if no successful relink
has occurred or the name was never registered". -/
def load_kernel (name : String) : Method CCWorld String :=
  fun s =>
    match s.self.dll_ with
    | none => .error (.callee "no module loaded")
    | some dll =>
      if s.self.kernels_.any (fun k => k.name == name) && dll.symbols.contains name then
        .ok (name, s)
      else .error (.callee "SymbolResolutionFailure")

/-- Modelled from the spec: `update_context` (declared at line 74): "marshal
launch arguments into the module's single context structure before a call". -/
def update_context (ctx : LaunchContextBuilder) : Method CCWorld CCContext :=
  fun s =>
    match s.self.context_ with
    | none => .error .null_deref
    | some c =>
      .ok ({ c with args := ctx.arg_bytes },
           { s with self := { s.self with
               context_ := some { c with args := ctx.arg_bytes },
               args_buf_ := ctx.arg_bytes } })

/-- Modelled from the spec: `context_to_result_buffer` (declared at line 75):
"copy result fields back into the shared result buffer" after a call. -/
def context_to_result_buffer : Method CCWorld Unit :=
  fun s =>
    match s.self.context_, s.self.result_buffer_ with
    | none, _ => .error .null_deref
    | _, none => .error .null_deref
    | some c, some a =>
      match s.host[a]? with
      | none => .error .null_deref
      | some buf =>
        .ok ((), { s with host := s.host.set a (c.results ++ buf.drop c.results.length) })

end CCProgramImpl

/-- Operations a caller performs on a `CCProgramImpl`: its member functions. -/
inductive CCOp where
  | compile (compile_config kernel : Ptr)
  | get_snode_num_dynamically_allocated (snode result_buffer : Ptr)
  | materialize_runtime (profiler : Ptr)
  | materialize_snode_tree (tree result_buffer : Ptr)
  | synchronize
  | make_aot_module_builder (caps : DeviceCapabilityConfig)
  | destroy_snode_tree (snode_tree : Ptr)
  | get_layout
  | get_runtime
  | load_kernel (name : String)
  | relink
  | update_context (ctx : LaunchContextBuilder)
  | context_to_result_buffer
  | dump_cache_data_to_disk
  | make_kernel_compiler
  | add_kernel (kernel : CCKernel)
  deriving DecidableEq, Repr

/-- One operation on the state. -/
def CCOp.step (env : CCEnv) (op : CCOp) (s : CCWorld) : Except Fault CCWorld :=
  match op with
  | .compile cfg k => (CCProgramImpl.compile env cfg k).after s
  | .get_snode_num_dynamically_allocated snode rb =>
    (CCProgramImpl.get_snode_num_dynamically_allocated snode rb).after s
  | .materialize_runtime p => (CCProgramImpl.materialize_runtime env p).after s
  | .materialize_snode_tree t rb => (CCProgramImpl.materialize_snode_tree env t rb).after s
  | .synchronize => CCProgramImpl.synchronize.after s
  | .make_aot_module_builder caps => (CCProgramImpl.make_aot_module_builder caps).after s
  | .destroy_snode_tree t => (CCProgramImpl.destroy_snode_tree t).after s
  | .get_layout => CCProgramImpl.get_layout.after s
  | .get_runtime => CCProgramImpl.get_runtime.after s
  | .load_kernel name => (CCProgramImpl.load_kernel name).after s
  | .relink => (CCProgramImpl.relink env).after s
  | .update_context ctx => (CCProgramImpl.update_context ctx).after s
  | .context_to_result_buffer => CCProgramImpl.context_to_result_buffer.after s
  | .dump_cache_data_to_disk => CCProgramImpl.dump_cache_data_to_disk.after s
  | .make_kernel_compiler => CCProgramImpl.make_kernel_compiler.after s
  | .add_kernel k => (CCProgramImpl.add_kernel k).after s

/-- A sequence of operations, run in order; the first fault ends the run. -/
def CCOp.run (env : CCEnv) (ops : List CCOp) (s : CCWorld) : Except Fault CCWorld :=
  match ops with
  | [] => .ok s
  | op :: rest =>
    match op.step env s with
    | .error e => .error e
    | .ok s' => CCOp.run env rest s'

/-- The operation is a `relink()`. -/
def CCOp.is_relink : CCOp → Bool
  | .relink => true
  | _ => false

/-! ## Sample states -/

/-- A capability set with raw device pointer passing enabled. -/
def caps_with_buffer_ptr : DeviceCapabilityConfig :=
  { devcaps := [(DeviceCapability.spirv_has_physical_storage_buffer, 1)] }

/-- A capability set with no capability enabled. -/
def caps_empty : DeviceCapabilityConfig :=
  { devcaps := [] }

/-- A bootstrapped OpenGL instance: one device at address 0 with raw device
pointer passing enabled, a runtime on that device with no work, and an empty
tree manager. -/
def sample_gl_world : GlWorld :=
  { self := { device_ := some 0,
              runtime_ := some { device_ := some 0, pending := [], queue := [] },
              snode_tree_mgr_ := some { trees := [] },
              aot_compiled_snode_structs_ := [] },
    devices := [{ caps_ := caps_with_buffer_ptr, allocations := [] }] }

/-- A tree manager body that forgets the tree with the given id and leaves the
devices alone; it raises an error on a null tree. -/
def sample_mgr_destroy (snode_tree : Ptr) (st : SNodeTreeManager × List Device) :
    Except String (SNodeTreeManager × List Device) :=
  match snode_tree with
  | none => .error "the tree to be destroyed cannot be found"
  | some t => .ok ({ trees := st.1.trees.filter (fun e => e.1 != (t : Int)) }, st.2)

/-- A set of collaborators for the OpenGL backend. -/
def sample_gfx_env : GfxEnv :=
  { mgr_destroy_snode_tree := sample_mgr_destroy,
    mgr_get_field_in_tree_offset := fun _ _ mgr => .ok (0, mgr),
    mgr_get_snode_tree_device_ptr := fun _ _ => .error "tree not materialized",
    get_struct_type_with_data_layout := fun ty _ => .ok (ty, 0) }

/-- A set of collaborators for the C-transpile backend: the module built from
any source exports the symbol "k". -/
def sample_cc_env : CCEnv :=
  { codegen := fun _ => { name := "k", source := "void k(void);" },
    struct_compile := fun _ => { source := "", root_size := 4, gtmp_size := 2 },
    build_and_load := fun _ path => some { path := path, symbols := ["k"] },
    module_path := "libti.so",
    runtime_support := { source := "" },
    result_buffer_entries := 2 }

/-- A run of the C-transpile backend without a relink. -/
def sample_cc_ops : List CCOp :=
  [CCOp.materialize_runtime none, CCOp.materialize_snode_tree (some 1) none,
   CCOp.compile none (some 2), CCOp.synchronize]

/-- A run of the OpenGL backend without a synchronize. -/
def sample_gl_ops : List GlOp :=
  [GlOp.flush, GlOp.used_in_kernel 0, GlOp.allocate_texture { x := 2, y := 2, z := 1 },
   GlOp.get_kernel_argument_data_layout]

/-! ## OpenGL backend: layout descriptors -/

/-- With the runtime and its device present, the argument descriptor is
computed from the current value of the capability and the state is kept. -/
theorem OpenglProgramImpl.argument_layout_of_device (w : GlWorld) (rt : GfxRuntime)
    (dev : Device) (hrt : w.self.runtime_ = some rt)
    (hdev : w.device_at rt.get_ti_device = .ok dev) :
    OpenglProgramImpl.get_kernel_argument_data_layout w =
      .ok ((if (dev.get_caps.get
              DeviceCapability.spirv_has_physical_storage_buffer) ≠ 0
            then "1b" else "1-"), w) := by
  simp only [OpenglProgramImpl.get_kernel_argument_data_layout, hrt, hdev]
  by_cases h : dev.get_caps.get DeviceCapability.spirv_has_physical_storage_buffer = 0
  · simp [h]
  · simp [h]

/-- C1. When the runtime and its device exist,
`get_kernel_argument_data_layout()` returns "1b" if the value of the capability
`spirv_has_physical_storage_buffer` is non-zero and "1-" otherwise, leaving the
state as it was; and whatever the state, a returned string is one of these
two. -/
theorem opengl_argument_layout_by_capability (w : GlWorld) :
    (∀ rt dev, w.self.runtime_ = some rt →
        w.device_at rt.get_ti_device = .ok dev →
        OpenglProgramImpl.get_kernel_argument_data_layout w =
          .ok ((if (dev.get_caps.get
                  DeviceCapability.spirv_has_physical_storage_buffer) ≠ 0
                then "1b" else "1-"), w)) ∧
    (∀ s w', OpenglProgramImpl.get_kernel_argument_data_layout w = .ok (s, w') →
        s = "1b" ∨ s = "1-") := by
  constructor
  · intro rt dev hrt hdev
    exact OpenglProgramImpl.argument_layout_of_device w rt dev hrt hdev
  · intro s w' h
    cases hrt : w.self.runtime_ with
    | none => simp [OpenglProgramImpl.get_kernel_argument_data_layout, hrt] at h
    | some rt =>
      cases hdev : w.device_at rt.get_ti_device with
      | error e => simp [OpenglProgramImpl.get_kernel_argument_data_layout, hrt, hdev] at h
      | ok dev =>
        rw [OpenglProgramImpl.argument_layout_of_device w rt dev hrt hdev] at h
        injection h with h
        injection h with hs _
        rw [← hs]
        by_cases hc : dev.get_caps.get DeviceCapability.spirv_has_physical_storage_buffer = 0
        · right; simp [hc]
        · left; simp [hc]

/-- C2. `get_kernel_return_data_layout()` returns "4-" in every state, also
when no runtime and no device exist, and leaves the state as it was. -/
theorem opengl_return_layout_fixed (w : GlWorld) :
    OpenglProgramImpl.get_kernel_return_data_layout w = .ok ("4-", w) := rfl

/-! ## Backends without sparse support, and the no-ops of the C-transpile backend -/

/-- C3. On both backends `get_snode_num_dynamically_allocated(snode,
result_buffer)` returns 0 for every pair of pointers, null ones included, in
every state: the call never faults, its result does not depend on the
arguments, and the state after the call is the state before it. -/
theorem snode_num_dynamically_allocated_is_zero (snode result_buffer : Ptr) :
    (∀ s : CCWorld,
      CCProgramImpl.get_snode_num_dynamically_allocated snode result_buffer s
        = .ok (0, s)) ∧
    (∀ w : GlWorld,
      OpenglProgramImpl.get_snode_num_dynamically_allocated snode result_buffer w
        = .ok (0, w)) :=
  ⟨fun _ => rfl, fun _ => rfl⟩

/-- C4. On the C-transpile backend `make_aot_module_builder(caps)` returns the
null builder for every capability configuration and every state; it never
faults and leaves the state as it was. -/
theorem cc_make_aot_module_builder_null (caps : DeviceCapabilityConfig) (s : CCWorld) :
    CCProgramImpl.make_aot_module_builder caps s = .ok (none, s) := rfl

/-- C5. On the C-transpile backend `synchronize()` returns in every state and
the state after the call, every data member of the instance included, is the
state before it. -/
theorem cc_synchronize_noop (s : CCWorld) :
    CCProgramImpl.synchronize s = .ok ((), s) := rfl

/-- C6. On the C-transpile backend `destroy_snode_tree(tree)` returns for every
tree pointer and every state, and the state after the call (layout, root and
scratch buffers and every other data member) is the state before it. -/
theorem cc_destroy_snode_tree_noop (snode_tree : Ptr) (s : CCWorld) :
    CCProgramImpl.destroy_snode_tree snode_tree s = .ok ((), s) := rfl

/-! ## OpenGL backend: tree destruction -/

/-- C7. `destroy_snode_tree(tree)` on the OpenGL backend ends in an assertion
failure exactly when `snode_tree_mgr_` is null; when the manager exists the
outcome is that of the manager's `destroy_snode_tree` on the very same tree
pointer; and the outcome is the same whatever `runtime_` is, so no liveness
information of the runtime is consulted. -/
theorem opengl_destroy_snode_tree_forwards
    (mgr_destroy : Ptr → SNodeTreeManager × List Device →
      Except String (SNodeTreeManager × List Device))
    (snode_tree : Ptr) (w : GlWorld) :
    ((∃ c, OpenglProgramImpl.destroy_snode_tree mgr_destroy snode_tree w
          = .error (.assertion c)) ↔ w.self.snode_tree_mgr_ = none) ∧
    (∀ mgr, w.self.snode_tree_mgr_ = some mgr →
      OpenglProgramImpl.destroy_snode_tree mgr_destroy snode_tree w =
        match mgr_destroy snode_tree (mgr, w.devices) with
        | .error msg => .error (.callee msg)
        | .ok (mgr', devices') =>
          .ok ((), { self := { w.self with snode_tree_mgr_ := some mgr' },
                     devices := devices' })) ∧
    (∀ rt' : Option GfxRuntime,
      OpenglProgramImpl.destroy_snode_tree mgr_destroy snode_tree
          { w with self := { w.self with runtime_ := rt' } } =
        match OpenglProgramImpl.destroy_snode_tree mgr_destroy snode_tree w with
        | .error e => .error e
        | .ok (u, w') => .ok (u, { w' with self := { w'.self with runtime_ := rt' } })) := by
  refine ⟨?_, ?_, ?_⟩
  · constructor
    · rintro ⟨c, hc⟩
      cases hm : w.self.snode_tree_mgr_ with
      | none => rfl
      | some mgr =>
        simp only [OpenglProgramImpl.destroy_snode_tree, hm] at hc
        cases hd : mgr_destroy snode_tree (mgr, w.devices) with
        | error msg => rw [hd] at hc; cases hc
        | ok r => rw [hd] at hc; cases hc
    · intro hm
      exact ⟨"snode_tree_mgr_ != nullptr", by
        simp only [OpenglProgramImpl.destroy_snode_tree, hm]⟩
  · intro mgr hm
    simp only [OpenglProgramImpl.destroy_snode_tree, hm]
  · intro rt'
    cases hm : w.self.snode_tree_mgr_ with
    | none => simp only [OpenglProgramImpl.destroy_snode_tree, hm]
    | some mgr =>
      simp only [OpenglProgramImpl.destroy_snode_tree, hm]
      cases hd : mgr_destroy snode_tree (mgr, w.devices) with
      | error msg => rfl
      | ok r => rfl

/-- Witness of C7: on the sample instance the manager exists, and destroying
the tree at address 3 is the manager's answer for that tree. -/
theorem opengl_destroy_snode_tree_forwards_witness :
    sample_gl_world.self.snode_tree_mgr_ = some { trees := [] } ∧
      OpenglProgramImpl.destroy_snode_tree sample_mgr_destroy (some 3) sample_gl_world
        = .ok ((), sample_gl_world) :=
  ⟨rfl,
   ((opengl_destroy_snode_tree_forwards sample_mgr_destroy (some 3) sample_gl_world).2.1
      { trees := [] } rfl).trans rfl⟩

/-- Witness of C1: on the sample instance the runtime and its device exist, the
capability has the value 1, and the descriptor is "1b". -/
theorem opengl_argument_layout_by_capability_witness :
    sample_gl_world.self.runtime_
        = some { device_ := some 0, pending := [], queue := [] } ∧
      sample_gl_world.device_at (some 0)
        = .ok { caps_ := caps_with_buffer_ptr, allocations := [] } ∧
      OpenglProgramImpl.get_kernel_argument_data_layout sample_gl_world
        = .ok ("1b", sample_gl_world) :=
  ⟨rfl, rfl,
   (opengl_argument_layout_by_capability sample_gl_world).1
     { device_ := some 0, pending := [], queue := [] }
     { caps_ := caps_with_buffer_ptr, allocations := [] } rfl rfl⟩

/-! ## OpenGL backend: when the capability is read -/

/-- C8 as stated fails: on the sample instance a first call returns "1b" and
changes nothing; after the capability set of the device is replaced by the
empty one, the instance being the same, a second call returns "1-". -/
theorem opengl_argument_layout_changes_with_device_caps :
    OpenglProgramImpl.get_kernel_argument_data_layout sample_gl_world
        = .ok ("1b", sample_gl_world) ∧
      (sample_gl_world.set_device_caps 0 caps_empty).self = sample_gl_world.self ∧
      OpenglProgramImpl.get_kernel_argument_data_layout
          (sample_gl_world.set_device_caps 0 caps_empty)
        = .ok ("1-", sample_gl_world.set_device_caps 0 caps_empty) :=
  ⟨rfl, rfl, rfl⟩

/-- C8, amended. The capability is read from the device at each call: in two
states in which the runtime and its device exist, the calls return, changing
nothing, and the two descriptors are equal exactly when the capability
`spirv_has_physical_storage_buffer` is zero in both states or non-zero in
both. -/
theorem opengl_argument_layout_follows_current_caps
    (w1 w2 : GlWorld) (rt1 rt2 : GfxRuntime) (dev1 dev2 : Device)
    (hrt1 : w1.self.runtime_ = some rt1)
    (hdev1 : w1.device_at rt1.get_ti_device = .ok dev1)
    (hrt2 : w2.self.runtime_ = some rt2)
    (hdev2 : w2.device_at rt2.get_ti_device = .ok dev2) :
    ∃ s1 s2,
      OpenglProgramImpl.get_kernel_argument_data_layout w1 = .ok (s1, w1) ∧
      OpenglProgramImpl.get_kernel_argument_data_layout w2 = .ok (s2, w2) ∧
      (s1 = s2 ↔
        (dev1.get_caps.get DeviceCapability.spirv_has_physical_storage_buffer = 0 ↔
         dev2.get_caps.get DeviceCapability.spirv_has_physical_storage_buffer = 0)) := by
  refine ⟨_, _, OpenglProgramImpl.argument_layout_of_device w1 rt1 dev1 hrt1 hdev1,
    OpenglProgramImpl.argument_layout_of_device w2 rt2 dev2 hrt2 hdev2, ?_⟩
  by_cases h1 : dev1.get_caps.get DeviceCapability.spirv_has_physical_storage_buffer = 0 <;>
    by_cases h2 : dev2.get_caps.get DeviceCapability.spirv_has_physical_storage_buffer = 0 <;>
    simp [h1, h2]

/-- Witness of the amended C8: the sample instance before and after the
capability set of its device is emptied; the descriptors "1b" and "1-" differ,
as the capability is non-zero before and zero after. -/
theorem opengl_argument_layout_follows_current_caps_witness :
    ∃ s1 s2,
      OpenglProgramImpl.get_kernel_argument_data_layout sample_gl_world
        = .ok (s1, sample_gl_world) ∧
      OpenglProgramImpl.get_kernel_argument_data_layout
          (sample_gl_world.set_device_caps 0 caps_empty)
        = .ok (s2, sample_gl_world.set_device_caps 0 caps_empty) ∧
      (s1 = s2 ↔
        (caps_with_buffer_ptr.get DeviceCapability.spirv_has_physical_storage_buffer = 0 ↔
         caps_empty.get DeviceCapability.spirv_has_physical_storage_buffer = 0)) :=
  opengl_argument_layout_follows_current_caps sample_gl_world
    (sample_gl_world.set_device_caps 0 caps_empty)
    { device_ := some 0, pending := [], queue := [] }
    { device_ := some 0, pending := [], queue := [] }
    { caps_ := caps_with_buffer_ptr, allocations := [] }
    { caps_ := caps_empty, allocations := [] }
    rfl rfl rfl rfl

/-! ## C-transpile backend: the relink state machine -/

/-- An operation other than `relink()` that returns leaves a set dirty flag
set. -/
theorem CCOp.step_keeps_dirty (env : CCEnv) (op : CCOp) (s s' : CCWorld)
    (hop : op.is_relink = false) (hs : s.self.need_relink_ = true)
    (h : op.step env s = .ok s') : s'.self.need_relink_ = true := by
  cases op with
  | relink => simp [CCOp.is_relink] at hop
  | compile cfg k =>
    simp only [CCOp.step, Method.after, CCProgramImpl.compile,
      CCProgramImpl.add_kernel] at h
    cases h; rfl
  | add_kernel k =>
    simp only [CCOp.step, Method.after, CCProgramImpl.add_kernel] at h
    cases h; rfl
  | materialize_runtime p =>
    simp only [CCOp.step, Method.after, CCProgramImpl.materialize_runtime] at h
    cases h; exact hs
  | materialize_snode_tree t rb =>
    simp only [CCOp.step, Method.after, CCProgramImpl.materialize_snode_tree] at h
    cases h; exact hs
  | get_snode_num_dynamically_allocated a b =>
    simp only [CCOp.step, Method.after,
      CCProgramImpl.get_snode_num_dynamically_allocated] at h
    cases h; exact hs
  | synchronize =>
    simp only [CCOp.step, Method.after, CCProgramImpl.synchronize] at h
    cases h; exact hs
  | make_aot_module_builder caps =>
    simp only [CCOp.step, Method.after, CCProgramImpl.make_aot_module_builder] at h
    cases h; exact hs
  | destroy_snode_tree t =>
    simp only [CCOp.step, Method.after, CCProgramImpl.destroy_snode_tree] at h
    cases h; exact hs
  | get_layout =>
    simp only [CCOp.step, Method.after, CCProgramImpl.get_layout] at h
    cases h; exact hs
  | get_runtime =>
    simp only [CCOp.step, Method.after, CCProgramImpl.get_runtime] at h
    cases h; exact hs
  | dump_cache_data_to_disk =>
    simp only [CCOp.step, Method.after, CCProgramImpl.dump_cache_data_to_disk] at h
    cases h; exact hs
  | make_kernel_compiler =>
    simp only [CCOp.step, Method.after, CCProgramImpl.make_kernel_compiler] at h
    cases h
  | load_kernel name =>
    simp only [CCOp.step, Method.after, CCProgramImpl.load_kernel] at h
    split at h
    · cases h
    · rename_i r hr
      split at hr
      · cases hr
      · split at hr
        · cases hr; cases h; exact hs
        · cases hr
  | update_context ctx =>
    simp only [CCOp.step, Method.after, CCProgramImpl.update_context] at h
    split at h
    · cases h
    · rename_i r hr
      split at hr
      · cases hr
      · cases hr; cases h; exact hs
  | context_to_result_buffer =>
    simp only [CCOp.step, Method.after, CCProgramImpl.context_to_result_buffer] at h
    split at h
    · cases h
    · rename_i r hr
      split at hr
      · cases hr
      · cases hr
      · split at hr
        · cases hr
        · cases hr; cases h; exact hs

/-- A run without `relink()` that returns leaves a set dirty flag set. -/
theorem CCOp.run_keeps_dirty (env : CCEnv) (ops : List CCOp) :
    ∀ s s' : CCWorld, (∀ op ∈ ops, op.is_relink = false) →
      s.self.need_relink_ = true → CCOp.run env ops s = .ok s' →
      s'.self.need_relink_ = true := by
  induction ops with
  | nil =>
    intro s s' _ hs h
    simp only [CCOp.run] at h
    cases h; exact hs
  | cons op rest ih =>
    intro s s' hops hs h
    simp only [CCOp.run] at h
    cases hstep : op.step env s with
    | error e => rw [hstep] at h; cases h
    | ok s1 =>
      rw [hstep] at h
      exact ih s1 s' (fun o ho => hops o (List.mem_cons_of_mem _ ho))
        (CCOp.step_keeps_dirty env op s s1 (hops op (List.mem_cons_self _ _)) hs hstep) h

/-- C10. A freshly constructed `CCProgramImpl` is Dirty: `need_relink_` is true,
the kernel list is empty and the result-buffer pointer is null; and every state
reached from it by member-function calls none of which is `relink()` still has
`need_relink_` true. -/
theorem cc_initial_state_is_dirty (env : CCEnv) (host : List (List Nat)) :
    (CCProgramImpl.construct host).self.need_relink_ = true ∧
    (CCProgramImpl.construct host).self.kernels_ = [] ∧
    (CCProgramImpl.construct host).self.result_buffer_ = none ∧
    ∀ (ops : List CCOp) (s : CCWorld), (∀ op ∈ ops, op.is_relink = false) →
      CCOp.run env ops (CCProgramImpl.construct host) = .ok s →
      s.self.need_relink_ = true :=
  ⟨rfl, rfl, rfl, fun ops s hops h =>
    CCOp.run_keeps_dirty env ops (CCProgramImpl.construct host) s hops rfl h⟩

/-- Witness of C10: bootstrap, tree materialization, one compile and a
synchronize, none of them a relink, run to a state that is still Dirty. -/
theorem cc_initial_state_is_dirty_witness :
    ∃ s, CCOp.run sample_cc_env sample_cc_ops (CCProgramImpl.construct []) = .ok s ∧
      (∀ op ∈ sample_cc_ops, op.is_relink = false) ∧
      s.self.kernels_ = [{ name := "k", source := "void k(void);" }] ∧
      s.self.need_relink_ = true :=
  ⟨_, rfl, by decide, rfl,
    (cc_initial_state_is_dirty sample_cc_env []).2.2.2 sample_cc_ops _ (by decide) rfl⟩

/-- The transition out of Dirty exists: the same run followed by `relink()`
returns with the dirty flag cleared and the module loaded. -/
theorem cc_relink_reaches_clean :
    ∃ s, CCOp.run sample_cc_env (sample_cc_ops ++ [CCOp.relink])
          (CCProgramImpl.construct []) = .ok s ∧
      s.self.need_relink_ = false ∧
      s.self.dll_ = some { path := "libti.so", symbols := ["k"] } :=
  ⟨_, rfl, rfl, rfl⟩

/-! ## OpenGL backend: liveness of allocations -/

/-- Submitting a kernel makes the allocations it references used. -/
theorem GfxRuntime.used_after_launch (rt : GfxRuntime) (refs : List DeviceAllocationId)
    (id : DeviceAllocationId) :
    (rt.launch_kernel refs).used_in_kernel id
      = (rt.used_in_kernel id || refs.contains id) := by
  simp only [GfxRuntime.used_in_kernel, GfxRuntime.launch_kernel, List.any_append,
    List.any_cons, List.any_nil, Bool.or_false]
  cases List.any rt.pending (fun r => r.refs.contains id) <;>
    cases List.any rt.queue (fun r => r.refs.contains id) <;>
    cases refs.contains id <;> rfl

/-- A flush moves records to the queue and keeps every allocation as used as it
was. -/
theorem GfxRuntime.used_after_flush (rt : GfxRuntime) (id : DeviceAllocationId) :
    (rt.flush).2.used_in_kernel id = rt.used_in_kernel id := by
  simp only [GfxRuntime.used_in_kernel, GfxRuntime.flush, List.any_append,
    List.nil_append, List.any_nil]
  cases List.any rt.pending (fun r => r.refs.contains id) <;>
    cases List.any rt.queue (fun r => r.refs.contains id) <;> rfl

/-- After a synchronize no allocation is used. -/
theorem GfxRuntime.used_after_synchronize (rt : GfxRuntime) (id : DeviceAllocationId) :
    rt.synchronize.used_in_kernel id = false := by
  simp [GfxRuntime.used_in_kernel, GfxRuntime.synchronize, GfxRuntime.flush]

/-- The allocation on the compute device keeps the instance and the number of
devices. -/
theorem OpenglProgramImpl.allocate_on_compute_device_keeps (size : Nat)
    (w w' : GlWorld) (a : DeviceAllocation)
    (h : OpenglProgramImpl.allocate_on_compute_device size w = .ok (a, w')) :
    w'.self = w.self ∧ w'.devices.length = w.devices.length := by
  simp only [OpenglProgramImpl.allocate_on_compute_device] at h
  split at h
  · cases h
  · split at h
    · cases h
    · cases h
      exact ⟨rfl, by simp⟩

/-- Effect of one returning operation on the runtime: the runtime is still
there, an allocation that was used stays used unless the operation is a
synchronize, and one that was not used stays so unless the operation submits a
kernel referencing it. -/
theorem GlOp.step_runtime
    (env : GfxEnv)
    (op : GlOp) (w w' : GlWorld) (rt : GfxRuntime) (id : DeviceAllocationId)
    (hrt : w.self.runtime_ = some rt) (h : op.step env w = .ok w') :
    ∃ rt', w'.self.runtime_ = some rt' ∧
      (op.is_synchronize = false → rt.used_in_kernel id = true →
        rt'.used_in_kernel id = true) ∧
      (op.launches_with id = false → rt.used_in_kernel id = false →
        rt'.used_in_kernel id = false) := by
  cases op with
  | get_snode_num_dynamically_allocated a b =>
    simp only [GlOp.step, Method.after,
      OpenglProgramImpl.get_snode_num_dynamically_allocated] at h
    cases h; exact ⟨rt, hrt, fun _ x => x, fun _ x => x⟩
  | synchronize =>
    simp only [GlOp.step, Method.after, OpenglProgramImpl.synchronize, hrt] at h
    cases h
    exact ⟨rt.synchronize, rfl, fun hs => by simp [GlOp.is_synchronize] at hs,
      fun _ _ => GfxRuntime.used_after_synchronize rt id⟩
  | flush =>
    simp only [GlOp.step, Method.after, OpenglProgramImpl.flush, hrt] at h
    cases h
    refine ⟨(rt.flush).2, rfl, fun _ x => ?_, fun _ x => ?_⟩
    · rw [GfxRuntime.used_after_flush]; exact x
    · rw [GfxRuntime.used_after_flush]; exact x
  | destroy_snode_tree t =>
    simp only [GlOp.step, Method.after, OpenglProgramImpl.destroy_snode_tree] at h
    split at h
    · cases h
    · rename_i r hr
      split at hr
      · cases hr
      · split at hr
        · cases hr
        · cases hr; cases h; exact ⟨rt, hrt, fun _ x => x, fun _ x => x⟩
  | allocate_memory_ndarray n rb =>
    simp only [GlOp.step, Method.after, OpenglProgramImpl.allocate_memory_ndarray] at h
    split at h
    · cases h
    · rename_i r hr
      cases h
      have hk := (OpenglProgramImpl.allocate_on_compute_device_keeps n w _ _ hr).1
      exact ⟨rt, by rw [hk]; exact hrt, fun _ x => x, fun _ x => x⟩
  | allocate_texture ps =>
    simp only [GlOp.step, Method.after, OpenglProgramImpl.allocate_texture] at h
    split at h
    · cases h
    · rename_i r hr
      cases h
      have hk := (OpenglProgramImpl.allocate_on_compute_device_keeps _ w _ _ hr).1
      exact ⟨rt, by rw [hk]; exact hrt, fun _ x => x, fun _ x => x⟩
  | used_in_kernel i =>
    simp only [GlOp.step, Method.after, OpenglProgramImpl.used_in_kernel, hrt] at h
    cases h; exact ⟨rt, hrt, fun _ x => x, fun _ x => x⟩
  | get_compute_device =>
    simp only [GlOp.step, Method.after, OpenglProgramImpl.get_compute_device] at h
    cases h; exact ⟨rt, hrt, fun _ x => x, fun _ x => x⟩
  | get_graphics_device =>
    simp only [GlOp.step, Method.after, OpenglProgramImpl.get_graphics_device] at h
    cases h; exact ⟨rt, hrt, fun _ x => x, fun _ x => x⟩
  | get_kernel_return_data_layout =>
    simp only [GlOp.step, Method.after,
      OpenglProgramImpl.get_kernel_return_data_layout] at h
    cases h; exact ⟨rt, hrt, fun _ x => x, fun _ x => x⟩
  | get_kernel_argument_data_layout =>
    simp only [GlOp.step, Method.after,
      OpenglProgramImpl.get_kernel_argument_data_layout, hrt] at h
    split at h
    · cases h
    · rename_i r hr
      split at hr
      · cases hr
      · cases hr; cases h; exact ⟨rt, hrt, fun _ x => x, fun _ x => x⟩
  | get_field_in_tree_offset tree_id child =>
    simp only [GlOp.step, Method.after, OpenglProgramImpl.get_field_in_tree_offset] at h
    split at h
    · cases h
    · rename_i r hr
      split at hr
      · cases hr
      · split at hr
        · cases hr
        · cases hr; cases h; exact ⟨rt, hrt, fun _ x => x, fun _ x => x⟩
  | get_snode_tree_device_ptr tree_id =>
    simp only [GlOp.step, Method.after, OpenglProgramImpl.get_snode_tree_device_ptr] at h
    split at h
    · cases h
    · rename_i r hr
      split at hr
      · cases hr
      · split at hr
        · cases hr
        · cases hr; cases h; exact ⟨rt, hrt, fun _ x => x, fun _ x => x⟩
  | get_struct_type_with_data_layout old_ty layout =>
    simp only [GlOp.step, Method.after,
      OpenglProgramImpl.get_struct_type_with_data_layout] at h
    split at h
    · cases h
    · rename_i r hr
      split at hr
      · cases hr
      · cases hr; cases h; exact ⟨rt, hrt, fun _ x => x, fun _ x => x⟩
  | launch_kernel refs =>
    simp only [GlOp.step, Method.after, OpenglProgramImpl.launch_kernel, hrt] at h
    cases h
    refine ⟨rt.launch_kernel refs, rfl, fun _ x => ?_, fun hl x => ?_⟩
    · rw [GfxRuntime.used_after_launch, x]; rfl
    · simp only [GlOp.launches_with] at hl
      rw [GfxRuntime.used_after_launch, x, hl]; rfl

/-- On a bootstrapped instance every operation other than `destroy_snode_tree`
returns, and the instance stays bootstrapped. -/
theorem GlOp.step_ready
    (env : GfxEnv)
    (op : GlOp) (w : GlWorld) (hw : w.ready) (hop : op.calls_collaborator = false) :
    ∃ w', op.step env w = .ok w' ∧ w'.ready := by
  obtain ⟨⟨rt, a, hrt, ha, hlt⟩, ⟨b, hb, hblt⟩⟩ := hw
  have hda : w.devices[a]? = some (w.devices[a]) := List.getElem?_eq_getElem hlt
  have hdb : w.devices[b]? = some (w.devices[b]) := List.getElem?_eq_getElem hblt
  have keep : w.ready := ⟨⟨rt, a, hrt, ha, hlt⟩, ⟨b, hb, hblt⟩⟩
  cases op with
  | destroy_snode_tree t => simp [GlOp.calls_collaborator] at hop
  | get_field_in_tree_offset tree_id child => simp [GlOp.calls_collaborator] at hop
  | get_snode_tree_device_ptr tree_id => simp [GlOp.calls_collaborator] at hop
  | get_struct_type_with_data_layout old_ty layout =>
    simp [GlOp.calls_collaborator] at hop
  | get_snode_num_dynamically_allocated x y => exact ⟨w, rfl, keep⟩
  | get_compute_device => exact ⟨w, rfl, keep⟩
  | get_graphics_device => exact ⟨w, rfl, keep⟩
  | get_kernel_return_data_layout => exact ⟨w, rfl, keep⟩
  | used_in_kernel i =>
    exact ⟨w, by simp only [GlOp.step, Method.after, OpenglProgramImpl.used_in_kernel, hrt],
      keep⟩
  | get_kernel_argument_data_layout =>
    refine ⟨w, ?_, keep⟩
    simp only [GlOp.step, Method.after, OpenglProgramImpl.get_kernel_argument_data_layout,
      hrt, GlWorld.device_at, GfxRuntime.get_ti_device, ha, hda]
  | synchronize =>
    refine ⟨{ w with self := { w.self with runtime_ := some rt.synchronize } }, ?_,
      ⟨rt.synchronize, a, rfl, ha, hlt⟩, ⟨b, hb, hblt⟩⟩
    simp only [GlOp.step, Method.after, OpenglProgramImpl.synchronize, hrt]
  | flush =>
    refine ⟨{ w with self := { w.self with runtime_ := some (rt.flush).2 } }, ?_,
      ⟨(rt.flush).2, a, rfl, ha, hlt⟩, ⟨b, hb, hblt⟩⟩
    simp only [GlOp.step, Method.after, OpenglProgramImpl.flush, hrt]
  | launch_kernel refs =>
    refine ⟨{ w with self := { w.self with runtime_ := some (rt.launch_kernel refs) } }, ?_,
      ⟨rt.launch_kernel refs, a, rfl, ha, hlt⟩, ⟨b, hb, hblt⟩⟩
    simp only [GlOp.step, Method.after, OpenglProgramImpl.launch_kernel, hrt]
  | allocate_memory_ndarray n rb =>
    refine ⟨{ w with devices := w.devices.set b ((w.devices[b]).allocate_memory n).2 },
      ?_, ?_, ?_⟩
    · simp only [GlOp.step, Method.after, OpenglProgramImpl.allocate_memory_ndarray,
        OpenglProgramImpl.allocate_on_compute_device, hb, hdb]
    · exact ⟨rt, a, hrt, ha, by simpa using hlt⟩
    · exact ⟨b, hb, by simpa using hblt⟩
  | allocate_texture ps =>
    refine ⟨{ w with devices :=
        w.devices.set b ((w.devices[b]).allocate_memory (ps.x * ps.y * ps.z)).2 },
      ?_, ?_, ?_⟩
    · simp only [GlOp.step, Method.after, OpenglProgramImpl.allocate_texture,
        OpenglProgramImpl.allocate_on_compute_device, hb, hdb]
    · exact ⟨rt, a, hrt, ha, by simpa using hlt⟩
    · exact ⟨b, hb, by simpa using hblt⟩

/-- A returning run without synchronize keeps a used allocation used. -/
theorem GlOp.run_keeps_used
    (env : GfxEnv)
    (id : DeviceAllocationId) (ops : List GlOp) :
    ∀ (w w' : GlWorld) (rt : GfxRuntime), (∀ op ∈ ops, op.is_synchronize = false) →
      w.self.runtime_ = some rt → rt.used_in_kernel id = true →
      GlOp.run env ops w = .ok w' →
      ∃ rt', w'.self.runtime_ = some rt' ∧ rt'.used_in_kernel id = true := by
  induction ops with
  | nil =>
    intro w w' rt _ hrt hu h
    simp only [GlOp.run] at h
    cases h; exact ⟨rt, hrt, hu⟩
  | cons op rest ih =>
    intro w w' rt hops hrt hu h
    simp only [GlOp.run] at h
    cases hstep : op.step env w with
    | error e => rw [hstep] at h; cases h
    | ok w1 =>
      rw [hstep] at h
      obtain ⟨rt1, hrt1, hkeep, _⟩ := GlOp.step_runtime env op w w1 rt id hrt hstep
      exact ih w1 w' rt1 (fun o ho => hops o (List.mem_cons_of_mem _ ho)) hrt1
        (hkeep (hops op (List.mem_cons_self _ _)) hu) h

/-- A returning run that submits no kernel referencing an allocation keeps an
unused allocation unused. -/
theorem GlOp.run_keeps_unused
    (env : GfxEnv)
    (id : DeviceAllocationId) (ops : List GlOp) :
    ∀ (w w' : GlWorld) (rt : GfxRuntime), (∀ op ∈ ops, op.launches_with id = false) →
      w.self.runtime_ = some rt → rt.used_in_kernel id = false →
      GlOp.run env ops w = .ok w' →
      ∃ rt', w'.self.runtime_ = some rt' ∧ rt'.used_in_kernel id = false := by
  induction ops with
  | nil =>
    intro w w' rt _ hrt hu h
    simp only [GlOp.run] at h
    cases h; exact ⟨rt, hrt, hu⟩
  | cons op rest ih =>
    intro w w' rt hops hrt hu h
    simp only [GlOp.run] at h
    cases hstep : op.step env w with
    | error e => rw [hstep] at h; cases h
    | ok w1 =>
      rw [hstep] at h
      obtain ⟨rt1, hrt1, _, hkeep⟩ := GlOp.step_runtime env op w w1 rt id hrt hstep
      exact ih w1 w' rt1 (fun o ho => hops o (List.mem_cons_of_mem _ ho)) hrt1
        (hkeep (hops op (List.mem_cons_self _ _)) hu) h

/-- On a bootstrapped instance a run without `destroy_snode_tree` returns. -/
theorem GlOp.run_ready
    (env : GfxEnv)
    (ops : List GlOp) :
    ∀ w : GlWorld, w.ready → (∀ op ∈ ops, op.calls_collaborator = false) →
      ∃ w', GlOp.run env ops w = .ok w' ∧ w'.ready := by
  induction ops with
  | nil => intro w hw _; exact ⟨w, rfl, hw⟩
  | cons op rest ih =>
    intro w hw hops
    obtain ⟨w1, hstep, hw1⟩ :=
      GlOp.step_ready env op w hw (hops op (List.mem_cons_self _ _))
    obtain ⟨w', hrun, hw'⟩ := ih w1 hw1 (fun o ho => hops o (List.mem_cons_of_mem _ ho))
    exact ⟨w', by simp only [GlOp.run, hstep, hrun], hw'⟩

/-- C9. The program-level `used_in_kernel(id)` and `synchronize()` forward to
the runtime's. On a bootstrapped instance `allocate_memory_ndarray` returns a
handle; after a kernel referencing that handle is submitted, `used_in_kernel`
of its id is true in every state reached by operations none of which is a
synchronize (such runs return when they hold no call into a collaborator
whose body is outside the header); a
`synchronize()` from any such state returns, and from then on `used_in_kernel`
of the id is false in every state reached by operations that submit no further
kernel referencing it. -/
theorem opengl_used_in_kernel_until_synchronize
    (env : GfxEnv)
    (w0 : GlWorld) (alloc_size : Nat) (result_buffer : Ptr) (hw0 : w0.ready) :
    (∀ (w : GlWorld) (rt : GfxRuntime) (id : DeviceAllocationId),
      w.self.runtime_ = some rt →
        OpenglProgramImpl.used_in_kernel id w = .ok (rt.used_in_kernel id, w) ∧
        OpenglProgramImpl.synchronize w =
          .ok ((), { w with self := { w.self with runtime_ := some rt.synchronize } })) ∧
    ∃ a w1,
      OpenglProgramImpl.allocate_memory_ndarray alloc_size result_buffer w0 = .ok (a, w1) ∧
      ∀ refs : List DeviceAllocationId, a.alloc_id ∈ refs →
        ∃ w2, OpenglProgramImpl.launch_kernel refs w1 = .ok ((), w2) ∧
          ∀ ops : List GlOp, (∀ op ∈ ops, op.is_synchronize = false) →
            ((∀ op ∈ ops, op.calls_collaborator = false) →
              ∃ w3, GlOp.run env ops w2 = .ok w3) ∧
            ∀ w3, GlOp.run env ops w2 = .ok w3 →
              OpenglProgramImpl.used_in_kernel a.alloc_id w3 = .ok (true, w3) ∧
              ∃ w4, OpenglProgramImpl.synchronize w3 = .ok ((), w4) ∧
                ∀ ops' : List GlOp, (∀ op ∈ ops', op.launches_with a.alloc_id = false) →
                  ∀ w5, GlOp.run env ops' w4 = .ok w5 →
                    OpenglProgramImpl.used_in_kernel a.alloc_id w5 = .ok (false, w5) := by
  constructor
  · intro w rt id hrt
    constructor
    · simp only [OpenglProgramImpl.used_in_kernel, hrt]
    · simp only [OpenglProgramImpl.synchronize, hrt]
  · obtain ⟨⟨rt, a, hrt, ha, hlt⟩, ⟨b, hb, hblt⟩⟩ := hw0
    have hdb : w0.devices[b]? = some (w0.devices[b]) := List.getElem?_eq_getElem hblt
    refine ⟨{ device := some b, alloc_id := ((w0.devices[b]).allocate_memory alloc_size).1 },
      { w0 with devices :=
          w0.devices.set b ((w0.devices[b]).allocate_memory alloc_size).2 }, ?_, ?_⟩
    · simp only [OpenglProgramImpl.allocate_memory_ndarray,
        OpenglProgramImpl.allocate_on_compute_device, hb, hdb]
    · intro refs hmem
      refine ⟨{ self := { w0.self with runtime_ := some (rt.launch_kernel refs) },
                devices := w0.devices.set b
                  ((w0.devices[b]).allocate_memory alloc_size).2 }, ?_, ?_⟩
      · simp only [OpenglProgramImpl.launch_kernel, hrt]
      · intro ops hsync
        have hused : (rt.launch_kernel refs).used_in_kernel
            ((w0.devices[b]).allocate_memory alloc_size).1 = true := by
          rw [GfxRuntime.used_after_launch]
          have : refs.contains ((w0.devices[b]).allocate_memory alloc_size).1 = true := by
            simpa using hmem
          rw [this, Bool.or_true]
        constructor
        · intro hnd
          obtain ⟨w3, h3, _⟩ := GlOp.run_ready env ops _
            (show GlWorld.ready
              { self := { w0.self with runtime_ := some (rt.launch_kernel refs) },
                devices := w0.devices.set b
                  ((w0.devices[b]).allocate_memory alloc_size).2 } from
              ⟨⟨rt.launch_kernel refs, a, rfl, ha, by simpa using hlt⟩,
               ⟨b, hb, by simpa using hblt⟩⟩) hnd
          exact ⟨w3, h3⟩
        · intro w3 h3
          obtain ⟨rt3, hrt3, hu3⟩ := GlOp.run_keeps_used env _ ops _ w3
            (rt.launch_kernel refs) hsync rfl hused h3
          refine ⟨by simp only [OpenglProgramImpl.used_in_kernel, hrt3, hu3],
            { w3 with self := { w3.self with runtime_ := some rt3.synchronize } },
            by simp only [OpenglProgramImpl.synchronize, hrt3], ?_⟩
          intro ops' hl w5 h5
          obtain ⟨rt5, hrt5, hu5⟩ := GlOp.run_keeps_unused env _ ops' _ w5
            rt3.synchronize hl rfl (GfxRuntime.used_after_synchronize rt3 _) h5
          simp only [OpenglProgramImpl.used_in_kernel, hrt5, hu5]

/-- Witness of C9: on the sample instance the allocation gets id 0; a kernel
referencing it is submitted; after a flush, a query, a texture allocation and a
layout query it is still used; after the synchronize it is not. -/
theorem opengl_used_in_kernel_until_synchronize_witness :
    sample_gl_world.ready ∧
    ∃ a w1 w2 w3 w4,
      OpenglProgramImpl.allocate_memory_ndarray 16 none sample_gl_world = .ok (a, w1) ∧
      a.alloc_id = 0 ∧
      OpenglProgramImpl.launch_kernel [0] w1 = .ok ((), w2) ∧
      GlOp.run sample_gfx_env sample_gl_ops w2 = .ok w3 ∧
      OpenglProgramImpl.used_in_kernel 0 w3 = .ok (true, w3) ∧
      OpenglProgramImpl.synchronize w3 = .ok ((), w4) ∧
      OpenglProgramImpl.used_in_kernel 0 w4 = .ok (false, w4) := by
  have hready : sample_gl_world.ready :=
    ⟨⟨_, 0, rfl, rfl, by decide⟩, ⟨0, rfl, by decide⟩⟩
  refine ⟨hready, ?_⟩
  obtain ⟨a, w1, halloc, hrest⟩ :=
    (opengl_used_in_kernel_until_synchronize sample_gfx_env sample_gl_world 16 none
      hready).2
  have ha : a.alloc_id = 0 := by
    have e : OpenglProgramImpl.allocate_memory_ndarray 16 none sample_gl_world
        = .ok ({ device := some 0, alloc_id := 0 },
               { sample_gl_world with
                 devices := [{ caps_ := caps_with_buffer_ptr, allocations := [16] }] }) := rfl
    rw [e] at halloc
    injection halloc with halloc
    injection halloc with h1 _
    rw [← h1]
  obtain ⟨w2, hlaunch, hops⟩ := hrest [0] (by rw [ha]; exact List.mem_singleton.mpr rfl)
  obtain ⟨hex, hall⟩ := hops sample_gl_ops (by decide)
  obtain ⟨w3, hrun⟩ := hex (by decide)
  obtain ⟨hused, w4, hsync, hafter⟩ := hall w3 hrun
  refine ⟨a, w1, w2, w3, w4, halloc, ha, hlaunch, hrun, ?_, hsync, ?_⟩
  · rw [← ha]; exact hused
  · rw [← ha]; exact hafter [] (by simp) w4 rfl

end taichi.lang
